import Mathlib

/-!
Shallow embedding of the fluent validation-chain library (src/src/validation.js).

The chain state (the static fields of the `Validation` class: `value`,
`innerErrorMessage`, `errors`, `optional`, `valid`, `prefixError`) is modelled
as the structure `Chain`; every chain method becomes a function `Chain → Chain`
(`isString`, which can throw, returns `Chain × Option String`, the second
component carrying the thrown message).  JavaScript values are modelled by the
inductive `JSValue`; JS numbers are rationals plus explicit `nan` and
infinities (floating-point rounding plays no role in any property below).

The external schema collaborators (Joi, tinyduration, mongodb ObjectID) are
external packages, declared opaque by the design: their string-level predicates
are fields of the `Schemas` parameter, while the parts of their behaviour the
chain code relies on structurally (non-strings fail `Joi.string()`,
`Joi.date().iso()`, `Joi.boolean().strict()`, etc.; `Joi.string().min`/`.max`
throw when handed `undefined` as a limit) are modelled directly.
-/

/-- Model of a JavaScript value.  `num` carries a rational (a finite,
non-NaN double); `nan` and `inf` are the remaining numeric values.
`obj` carries only its own property names, which is all the library inspects
(`Object.getOwnPropertyNames`); `arr` carries its elements. -/
inductive JSValue where
  | null
  | undef
  | bool (b : Bool)
  | num (q : ℚ)
  | nan
  | inf (positive : Bool)
  | str (s : String)
  | arr (elems : List JSValue)
  | obj (propNames : List String)

/-- JavaScript truthiness: `null`, `undefined`, `false`, `0`, `NaN` and the
empty string are falsy; every object (including `[]` and `\x7b\x7d`) is truthy. -/
def truthy : JSValue → Bool
  | .null => false
  | .undef => false
  | .bool b => b
  | .num q => !(q == 0)
  | .nan => false
  | .inf _ => true
  | .str s => !(s == "")
  | .arr _ => true
  | .obj _ => true

/-- Array.isArray. -/
def isArrV : JSValue → Bool
  | .arr _ => true
  | _ => false

/-- typeof v === "string". -/
def isStrV : JSValue → Bool
  | .str _ => true
  | _ => false

/-- v === undefined. -/
def isUndefV : JSValue → Bool
  | .undef => true
  | _ => false

/-- JavaScript strict equality (===) on the modelled values.  `NaN` is not
equal to itself.  Distinct array/object literals are distinct references, so
`===` on them is `false` (the library only ever compares against fresh
literals supplied by the caller, never against aliases of the chained value). -/
def jsStrictEq : JSValue → JSValue → Bool
  | .null, .null => true
  | .undef, .undef => true
  | .bool a, .bool b => a == b
  | .num a, .num b => a == b
  | .inf a, .inf b => a == b
  | .str a, .str b => a == b
  | _, _ => false

/-- SameValueZero, used by `Array.prototype.includes`: like `===` but `NaN`
matches `NaN`. -/
def sameValueZero (a b : JSValue) : Bool :=
  match a, b with
  | .nan, .nan => true
  | _, _ => jsStrictEq a b

/-- The `.length` property read by `isArrayNotEmpty` (only ever evaluated on
values that already passed the array schema-check). -/
def jsLen : JSValue → Nat
  | .arr xs => xs.length
  | .str s => s.length
  | _ => 0

/-- Coercion used where the chain hands a value it has already checked to be a
string to a string-consuming collaborator. -/
def jsAsString : JSValue → String
  | .str s => s
  | _ => ""

/-- Decimal rendering of a JS number.  Exact for integers (the only numeric
values any property below stringifies); the rendering of non-integer doubles
is not modelled bit-faithfully. -/
def ratToString (q : ℚ) : String :=
  if q.den = 1 then toString q.num else toString q

/-- Rendering of one array element under `Array.prototype.join` (`null` and
`undefined` render as the empty string there).  Nested arrays join
recursively in JS; that corner is approximated and unused below. -/
def arrElemToString : JSValue → String
  | .null => ""
  | .undef => ""
  | .nan => "NaN"
  | .bool true => "true"
  | .bool false => "false"
  | .inf true => "Infinity"
  | .inf false => "-Infinity"
  | .num q => ratToString q
  | .str s => s
  | .arr _ => ""
  | .obj _ => "[object Object]"

/-- String(v), the coercion applied by `RegExp.prototype.test` to its
argument. -/
def jsToString : JSValue → String
  | .null => "null"
  | .undef => "undefined"
  | .arr xs => String.intercalate "," (xs.map arrElemToString)
  | v => arrElemToString v

/-- Full anchored match of `String(f)` against the pattern
`^(a1|a2|...)$` built by `isArrayMatch` from the joined alternatives.  For
alternatives free of regex metacharacters (the intended use) this is exactly
membership; joining the empty list yields `^()$`, which matches only `""`. -/
def regexTest (alts : List String) (f : JSValue) : Bool :=
  let s := jsToString f
  if alts.isEmpty then s == "" else alts.contains s

/-- _isEmptyObject: no own symbol-keyed and no own string-keyed properties
(symbols are not modelled separately; `obj` carries all own property names).
Only ever evaluated on values that passed the object schema-check. -/
def isEmptyObjectV : JSValue → Bool
  | .obj names => names.isEmpty
  | _ => false

/-- The caller-supplied message bundle `innerErrorMessage`. -/
structure Msgs where
  required : String
  invalid : String

/-- The chain state: the static fields of the `Validation` class. -/
structure Chain where
  value : JSValue
  innerErrorMessage : Msgs
  errors : List String
  optional : Bool
  valid : Bool
  preErr : String

/-- The opaque string-level behaviour of the external collaborators:
Joi's ISO-date, email and UUID string formats, tinyduration's parser
(`durationStr s = true` iff `tinyduration.parse s` does not throw) and
`ObjectID.isValid`. -/
structure Schemas where
  isoDateStr : String → Bool
  emailStr : String → Bool
  uuidStr : String → Bool
  durationStr : String → Bool
  objectIdOk : JSValue → Bool

/-- Number.MAX_SAFE_INTEGER, the bound Joi's number type enforces by
default. -/
def maxSafe : ℚ := 9007199254740991

/-- Joi.number(): finite, non-NaN, within the safe range (`NaN` and the
infinities are excluded before this is consulted, see `floatAccepted`). -/
def joiNumberOk (q : ℚ) : Bool :=
  decide (-maxSafe ≤ q) && decide (q ≤ maxSafe)

/-- Joi.number().integer(): additionally a (safe) integer. -/
def joiIntegerOk (q : ℚ) : Bool :=
  (q.den == 1) && joiNumberOk q

/-- Joi.string(): strings only, and the empty string is disallowed by
default. -/
def joiStringOk : JSValue → Bool
  | .str s => !(s == "")
  | _ => false

/-- Joi.boolean().strict(): strictly boolean-typed values only. -/
def boolOk : JSValue → Bool
  | .bool _ => true
  | _ => false

/-- Joi.object(): plain objects (arrays are not objects for Joi). -/
def objOk : JSValue → Bool
  | .obj _ => true
  | _ => false

/-- Joi.date().iso(): only ISO-formatted strings can pass (Date instances are
not part of the modelled value universe); which strings pass is opaque. -/
def isoDateOk (S : Schemas) : JSValue → Bool
  | .str s => S.isoDateStr s
  | _ => false

/-- Joi.string().email(): strings matching the opaque email syntax. -/
def emailOk (S : Schemas) : JSValue → Bool
  | .str s => !(s == "") && S.emailStr s
  | _ => false

/-- Joi.string().guid(uuidv1/uuidv4): strings matching the opaque UUID
syntax. -/
def uuidOk (S : Schemas) : JSValue → Bool
  | .str s => !(s == "") && S.uuidStr s
  | _ => false

/-- The string schema built at the top of isString:
with both bounds undefined, `Joi.string().allow('')`;
with `minLength === 0`, `Joi.string().allow('').min(0).max(max)`;
otherwise `Joi.string().min(min).max(max)`.  Only consulted when the bound
arguments do not make Joi's `.min`/`.max` assert (see `stringArgsThrow`). -/
def stringSchemaOk (minLength maxLength : Option Nat) (v : JSValue) : Bool :=
  match v with
  | .str s =>
    match minLength, maxLength with
    | none, none => true
    | some 0, some m => (s == "") || decide (s.length ≤ m)
    | some (k+1), some m => decide (k + 1 ≤ s.length) && decide (s.length ≤ m)
    | _, _ => false
  | _ => false

/-- Joi's `.min(limit)` / `.max(limit)` assert (throw) when `limit` is
`undefined`; isString reaches such a call exactly when one bound is supplied
and the other is not. -/
def stringArgsThrow : Option Nat → Option Nat → Bool
  | none, none => false
  | some _, some _ => false
  | _, _ => true

/-- validate: (re)initialize the whole chain state. -/
def validate (value : JSValue) (innerErrorMessage : Msgs) (errors : List String)
    (preErr : String) : Chain :=
  { value := value, innerErrorMessage := innerErrorMessage, errors := errors,
    optional := false, valid := true, preErr := preErr }

/-- isOptional: set the optional flag; nothing else changes. -/
def isOptional (c : Chain) : Chain :=
  { c with optional := true }

/-- _isNullOrUndefined. -/
def _isNullOrUndefined : JSValue → Bool
  | .null => true
  | .undef => true
  | _ => false

/-- _verifyNullOrUndefined, returning
(isNullOrUndefined, valid, updated errors).  Note the source's
`this.valid = false` inside this arrow function writes to the module-level
`this` (the original `module.exports` object), not to the chain, so it is a
dead store and is not modelled; the chain is only affected through the
returned `valid` and the push onto the shared `errors` array. -/
def _verifyNullOrUndefined (optional : Bool) (value : JSValue)
    (errors : List String) (msg : Msgs) (preErr : String) :
    Bool × Bool × List String :=
  let isNU := _isNullOrUndefined value
  if optional && isNU then (true, false, errors)
  else if !isNU then (false, true, errors)
  else (true, false, errors ++ [preErr ++ msg.required])

/-- _validation: shared wrapper around a schema-check.  Returns the verdict
and the updated errors list. -/
def _validation (schemaOk : JSValue → Bool) (optional : Bool) (value : JSValue)
    (errors : List String) (msg : Msgs) (preErr : String) :
    Bool × List String :=
  let r := _verifyNullOrUndefined optional value errors msg preErr
  if r.1 then (r.2.1, r.2.2)
  else if schemaOk value then (r.2.1, r.2.2)
  else (false, r.2.2 ++ [preErr ++ msg.invalid])

/-- The failure idiom repeated across the checks:
`this.valid = false; this.errors.push(this.prefixError + this.innerErrorMessage.invalid)`. -/
def pushInvalid (c : Chain) : Chain :=
  { c with valid := false, errors := c.errors ++ [c.preErr ++ c.innerErrorMessage.invalid] }

/-- isString(minLength, maxLength, notAllowedValues).  The three schema
branches are folded into `stringSchemaOk`; the Joi limit assertion
(`stringArgsThrow`) fires during schema construction, before `_validation`
runs.  The `notAllowedValues` contract check runs after `_validation`; a
truthy non-array aborts with a thrown error.  Membership of `value` in an
array `notAllowedValues` pushes `innerErrorMessage.invalid` (without the
prefix) and does not assign `valid`.  The second component of the result
carries the thrown message, `none` when the call returns normally. -/
def isString (minLength maxLength : Option Nat) (notAllowedValues : JSValue)
    (c : Chain) : Chain × Option String :=
  if stringArgsThrow minLength maxLength then
    (c, some "limit must be a positive integer or reference")
  else
    let r := _validation (stringSchemaOk minLength maxLength) c.optional
      c.value c.errors c.innerErrorMessage c.preErr
    let c1 := { c with valid := r.1, errors := r.2 }
    if truthy notAllowedValues && !(isArrV notAllowedValues) then
      (c1, some "notAllowedValues must be an array")
    else
      match notAllowedValues with
      | .arr xs =>
        if xs.any (fun x => jsStrictEq x c1.value) then
          ({ c1 with errors := c1.errors ++ [c1.innerErrorMessage.invalid] }, none)
        else (c1, none)
      | _ => (c1, none)

/-- isStringEnum(enumArray): Joi.string() then membership via
`Array.prototype.includes`. -/
def isStringEnum (enumArray : List JSValue) (c : Chain) : Chain :=
  let r := _validation joiStringOk c.optional c.value c.errors
    c.innerErrorMessage c.preErr
  let c1 := { c with valid := r.1, errors := r.2 }
  if !c1.valid || isUndefV c1.value then c1
  else if !(enumArray.any (fun x => sameValueZero x c1.value)) then pushInvalid c1
  else c1

/-- typeof value === "number" and !isNaN(value) and Joi.number().integer()
passes.  NaN has numeric type but is filtered by the isNaN guard; the
infinities pass both guards but Joi rejects them. -/
def numberAccepted : JSValue → Bool
  | .num q => joiIntegerOk q
  | _ => false

/-- typeof value === "number" and !isNaN(value) and Joi.number() passes. -/
def floatAccepted : JSValue → Bool
  | .num q => joiNumberOk q
  | _ => false

/-- isNumber(). -/
def isNumber (c : Chain) : Chain :=
  let r := _verifyNullOrUndefined c.optional c.value c.errors
    c.innerErrorMessage c.preErr
  let c1 := { c with valid := r.2.1, errors := r.2.2 }
  if r.1 then c1
  else if numberAccepted c1.value then c1
  else pushInvalid c1

/-- isFloat(). -/
def isFloat (c : Chain) : Chain :=
  let r := _verifyNullOrUndefined c.optional c.value c.errors
    c.innerErrorMessage c.preErr
  let c1 := { c with valid := r.2.1, errors := r.2.2 }
  if r.1 then c1
  else if floatAccepted c1.value then c1
  else pushInvalid c1

/-- isDateISO(): the source calls `_validation` for its push onto `errors`
but discards the returned verdict, so `valid` is never assigned here. -/
def isDateISO (S : Schemas) (c : Chain) : Chain :=
  let r := _validation (isoDateOk S) c.optional c.value c.errors
    c.innerErrorMessage c.preErr
  { c with errors := r.2 }

/-- isDateIS8601Duration(): Joi.string() first; on success,
`tinyduration.parse`, whose throw is folded into an invalid message. -/
def isDateIS8601Duration (S : Schemas) (c : Chain) : Chain :=
  let r := _validation joiStringOk c.optional c.value c.errors
    c.innerErrorMessage c.preErr
  let c1 := { c with valid := r.1, errors := r.2 }
  if !c1.valid then c1
  else if S.durationStr (jsAsString c1.value) then c1
  else pushInvalid c1

/-- isBoolean(): like isDateISO, the verdict of `_validation` is discarded;
only `errors` is affected. -/
def isBoolean (c : Chain) : Chain :=
  let r := _validation boolOk c.optional c.value c.errors
    c.innerErrorMessage c.preErr
  { c with errors := r.2 }

/-- isObject(). -/
def isObject (c : Chain) : Chain :=
  let r := _validation objOk c.optional c.value c.errors
    c.innerErrorMessage c.preErr
  { c with valid := r.1, errors := r.2 }

/-- isObjectNotEmpty(): explicit missing-value check, then the wrapped object
check, then the emptiness test. -/
def isObjectNotEmpty (c : Chain) : Chain :=
  let r0 := _verifyNullOrUndefined c.optional c.value c.errors
    c.innerErrorMessage c.preErr
  let c1 := { c with valid := r0.2.1, errors := r0.2.2 }
  if r0.1 then c1
  else
    let r := _validation objOk c1.optional c1.value c1.errors
      c1.innerErrorMessage c1.preErr
    let c2 := { c1 with valid := r.1, errors := r.2 }
    if !c2.valid || !(isEmptyObjectV c2.value) then c2
    else pushInvalid c2

/-- isObjectId(). -/
def isObjectId (S : Schemas) (c : Chain) : Chain :=
  let r := _verifyNullOrUndefined c.optional c.value c.errors
    c.innerErrorMessage c.preErr
  let c1 := { c with valid := r.2.1, errors := r.2.2 }
  if r.1 then c1
  else if S.objectIdOk c1.value then c1
  else pushInvalid c1

/-- isEmail(). -/
def isEmail (S : Schemas) (c : Chain) : Chain :=
  let r := _validation (emailOk S) c.optional c.value c.errors
    c.innerErrorMessage c.preErr
  { c with valid := r.1, errors := r.2 }

/-- isUUID(). -/
def isUUID (S : Schemas) (c : Chain) : Chain :=
  let r := _validation (uuidOk S) c.optional c.value c.errors
    c.innerErrorMessage c.preErr
  { c with valid := r.1, errors := r.2 }

/-- isArray(). -/
def isArray (c : Chain) : Chain :=
  let r := _validation isArrV c.optional c.value c.errors
    c.innerErrorMessage c.preErr
  { c with valid := r.1, errors := r.2 }

/-- isArrayMatch(validArray): explicit missing-value check; a non-array
non-string present value is an immediate invalid; a single string is wrapped
into a one-element array; the element loop pushes at most one invalid message
(it breaks at the first mismatch), so the loop is equivalently: if every
element matches, leave the state alone, else push once and set valid false. -/
def isArrayMatch (validArray : List String) (c : Chain) : Chain :=
  let r := _verifyNullOrUndefined c.optional c.value c.errors
    c.innerErrorMessage c.preErr
  let c1 := { c with valid := r.2.1, errors := r.2.2 }
  if r.1 then c1
  else
    match c1.value with
    | .arr xs =>
      if xs.all (fun f => regexTest validArray f) then c1 else pushInvalid c1
    | .str s =>
      if regexTest validArray (.str s) then c1 else pushInvalid c1
    | _ => pushInvalid c1

/-- isArrayNotEmpty(). -/
def isArrayNotEmpty (c : Chain) : Chain :=
  let r := _validation isArrV c.optional c.value c.errors
    c.innerErrorMessage c.preErr
  let c1 := { c with valid := r.1, errors := r.2 }
  if !c1.valid || decide (0 < jsLen c1.value) then c1
  else pushInvalid c1

/-- custom(func). -/
def custom (f : JSValue → Bool) (c : Chain) : Chain :=
  let r := _verifyNullOrUndefined c.optional c.value c.errors
    c.innerErrorMessage c.preErr
  let c1 := { c with valid := r.2.1, errors := r.2.2 }
  if r.1 then c1
  else if f c1.value then c1
  else pushInvalid c1

/-- isValid(func): invoke the zero-argument callback iff `valid` is true;
the state is returned untouched.  The second component counts the callback
invocations (the callback's own effects live outside the chain state). -/
def isValid (c : Chain) : Chain × Nat :=
  if c.valid then (c, 1) else (c, 0)

/-- One chained check call, with its arguments: the sixteen per-type check
methods of the class (the lifecycle methods validate / isOptional / isValid
are not checks).  `isString` carries its two optional length bounds and its
`notAllowedValues` argument (any JS value, `undef` when omitted). -/
inductive Check where
  | isString (minLength maxLength : Option Nat) (notAllowedValues : JSValue)
  | isStringEnum (enumArray : List JSValue)
  | isNumber
  | isFloat
  | isDateISO
  | isDateIS8601Duration
  | isBoolean
  | isObject
  | isObjectNotEmpty
  | isObjectId
  | isEmail
  | isUUID
  | isArray
  | isArrayMatch (validArray : List String)
  | isArrayNotEmpty
  | custom (f : JSValue → Bool)

/-- Dispatch one check call.  The second component is the thrown message
(`none` for a normal return); only `isString` can throw. -/
def runCheck (S : Schemas) (chk : Check) (c : Chain) : Chain × Option String :=
  match chk with
  | .isString minL maxL nav => isString minL maxL nav c
  | .isStringEnum xs => (isStringEnum xs c, none)
  | .isNumber => (isNumber c, none)
  | .isFloat => (isFloat c, none)
  | .isDateISO => (isDateISO S c, none)
  | .isDateIS8601Duration => (isDateIS8601Duration S c, none)
  | .isBoolean => (isBoolean c, none)
  | .isObject => (isObject c, none)
  | .isObjectNotEmpty => (isObjectNotEmpty c, none)
  | .isObjectId => (isObjectId S c, none)
  | .isEmail => (isEmail S c, none)
  | .isUUID => (isUUID S c, none)
  | .isArray => (isArray c, none)
  | .isArrayMatch alts => (isArrayMatch alts c, none)
  | .isArrayNotEmpty => (isArrayNotEmpty c, none)
  | .custom f => (custom f c, none)

/-- The extra message isString's notAllowedValues membership branch appends:
when the argument is an array an element of which is (===) the chained value,
the unprefixed `invalid` message; nothing otherwise. -/
def navMemberExtra (nav : JSValue) (c : Chain) : List String :=
  match nav with
  | .arr xs =>
    if xs.any (fun x => jsStrictEq x c.value) then [c.innerErrorMessage.invalid]
    else []
  | _ => []

/-- The verdict a check call leaves behind when the chained value is missing:
`false` for every check that assigns `_validation` / `_verifyNullOrUndefined`'s
result, the previous verdict for isDateISO and isBoolean (they discard it) and
for an isString whose schema construction throws before any mutation. -/
def missingValid (chk : Check) (c : Chain) : Bool :=
  match chk with
  | .isDateISO => c.valid
  | .isBoolean => c.valid
  | .isString minL maxL _ => if stringArgsThrow minL maxL then c.valid else false
  | _ => false

/-- Messages appended by a check call on a missing value when `optional` is
true: none, except isString's membership quirk (an isString whose schema
construction throws appends nothing at all). -/
def missingOptExtra (chk : Check) (c : Chain) : List String :=
  match chk with
  | .isString minL maxL nav =>
    if stringArgsThrow minL maxL then [] else navMemberExtra nav c
  | _ => []

/-- Messages appended by a check call on a missing value when `optional` is
false: the prefixed `required` message, plus isString's membership quirk
(an isString whose schema construction throws appends nothing at all). -/
def missingReqExtra (chk : Check) (c : Chain) : List String :=
  match chk with
  | .isString minL maxL nav =>
    if stringArgsThrow minL maxL then []
    else [c.preErr ++ c.innerErrorMessage.required] ++ navMemberExtra nav c
  | _ => [c.preErr ++ c.innerErrorMessage.required]

/-- Arguments under which a check call cannot throw: isString must not hand
Joi an undefined length limit and must not receive a truthy non-array
`notAllowedValues`; no other check throws. -/
def checkArgsOk : Check → Bool
  | .isString minL maxL nav =>
    !(stringArgsThrow minL maxL) && !(truthy nav && !(isArrV nav))
  | _ => true

/-- The check-specific failure condition on a present value, read off each
method: the wrapped schema-check fails, or (for the two-stage checks) the
second stage rejects. -/
def checkFails (S : Schemas) (chk : Check) (v : JSValue) : Bool :=
  match chk with
  | .isString minL maxL _ => !(stringSchemaOk minL maxL v)
  | .isStringEnum xs =>
    !(joiStringOk v) || !(xs.any (fun x => sameValueZero x v))
  | .isNumber => !(numberAccepted v)
  | .isFloat => !(floatAccepted v)
  | .isDateISO => !(isoDateOk S v)
  | .isDateIS8601Duration =>
    !(joiStringOk v) || !(S.durationStr (jsAsString v))
  | .isBoolean => !(boolOk v)
  | .isObject => !(objOk v)
  | .isObjectNotEmpty => !(objOk v) || isEmptyObjectV v
  | .isObjectId => !(S.objectIdOk v)
  | .isEmail => !(emailOk S v)
  | .isUUID => !(uuidOk S v)
  | .isArray => !(isArrV v)
  | .isArrayMatch alts =>
    match v with
    | .arr xs => !(xs.all (fun f => regexTest alts f))
    | .str s => !(regexTest alts (.str s))
    | _ => true
  | .isArrayNotEmpty => !(isArrV v) || decide (jsLen v = 0)
  | .custom f => !(f v)

/-- The verdict left behind by a failing check on a present value: `false`
everywhere except isDateISO and isBoolean, which never assign it. -/
def presentFailValid (chk : Check) (c : Chain) : Bool :=
  match chk with
  | .isDateISO => c.valid
  | .isBoolean => c.valid
  | _ => false

/-- The messages a failing check appends beyond the prefixed `invalid` one:
only isString's membership quirk can add a second (unprefixed) message. -/
def presentNavExtra (chk : Check) (c : Chain) : List String :=
  match chk with
  | .isString _ _ nav => navMemberExtra nav c
  | _ => []

/-- A fixed instantiation of the opaque collaborators, used for concrete
evaluations whose outcome does not depend on them (the values involved are
rejected structurally, before any opaque string predicate is consulted). -/
def joiLike : Schemas :=
  ⟨fun _ => true, fun _ => true, fun _ => true, fun _ => true, fun _ => true⟩

/-- A fixed message bundle for the concrete instances below. -/
def msgsRI : Msgs := ⟨"REQ", "INV"⟩

lemma verify_missing (ob : Bool) (v : JSValue) (e : List String) (m : Msgs)
    (p : String) (hv : _isNullOrUndefined v = true) :
    _verifyNullOrUndefined ob v e m p =
      (true, false, if ob then e else e ++ [p ++ m.required]) := by
  cases ob <;> simp [_verifyNullOrUndefined, hv]

lemma verify_present (ob : Bool) (v : JSValue) (e : List String) (m : Msgs)
    (p : String) (hv : _isNullOrUndefined v = false) :
    _verifyNullOrUndefined ob v e m p = (false, true, e) := by
  simp [_verifyNullOrUndefined, hv]

lemma validation_missing (sch : JSValue → Bool) (ob : Bool) (v : JSValue)
    (e : List String) (m : Msgs) (p : String)
    (hv : _isNullOrUndefined v = true) :
    _validation sch ob v e m p =
      (false, if ob then e else e ++ [p ++ m.required]) := by
  simp [_validation, verify_missing ob v e m p hv]

lemma validation_present_ok (sch : JSValue → Bool) (ob : Bool) (v : JSValue)
    (e : List String) (m : Msgs) (p : String)
    (hv : _isNullOrUndefined v = false) (hs : sch v = true) :
    _validation sch ob v e m p = (true, e) := by
  simp [_validation, verify_present ob v e m p hv, hs]

lemma validation_present_fail (sch : JSValue → Bool) (ob : Bool) (v : JSValue)
    (e : List String) (m : Msgs) (p : String)
    (hv : _isNullOrUndefined v = false) (hs : sch v = false) :
    _validation sch ob v e m p = (false, e ++ [p ++ m.invalid]) := by
  simp [_validation, verify_present ob v e m p hv, hs]

lemma present_not_undef (v : JSValue) (hv : _isNullOrUndefined v = false) :
    isUndefV v = false := by
  cases v <;> simp_all [_isNullOrUndefined, isUndefV]

/-- C8: isValid(fn) invokes the zero-argument callback exactly once when the
chain's `valid` is currently true and never when it is false; it mutates
neither `valid` nor `errors` (the whole state is returned untouched) and
returns the chain in both cases. -/
theorem isValid_callback_semantics (c : Chain) :
    (isValid c).1 = c ∧ (isValid c).2 = (if c.valid then 1 else 0) := by
  unfold isValid
  split <;> simp_all

/-- C7: isString(0, 5) accepts the empty string (min is exactly 0, max still
enforced) and rejects a nine-character string with one prefixed invalid
message; with both bounds undefined isString accepts the empty string on any
chain, appending nothing. -/
theorem isString_bounds_behaviour :
    ((isString (some 0) (some 5) .undef (validate (.str "") msgsRI [] "P.")).2 = none ∧
     (isString (some 0) (some 5) .undef (validate (.str "") msgsRI [] "P.")).1.valid = true ∧
     (isString (some 0) (some 5) .undef (validate (.str "") msgsRI [] "P.")).1.errors = []) ∧
    ((isString (some 0) (some 5) .undef (validate (.str "toolong!!") msgsRI [] "P.")).2 = none ∧
     (isString (some 0) (some 5) .undef (validate (.str "toolong!!") msgsRI [] "P.")).1.valid = false ∧
     (isString (some 0) (some 5) .undef (validate (.str "toolong!!") msgsRI [] "P.")).1.errors = ["P.INV"]) ∧
    (∀ c : Chain, c.value = .str "" →
      (isString none none .undef c).2 = none ∧
      (isString none none .undef c).1.valid = true ∧
      (isString none none .undef c).1.errors = c.errors) := by
  refine ⟨⟨by decide, by decide, by decide⟩, ⟨by decide, by decide, by decide⟩, ?_⟩
  intro c h
  have hv : _isNullOrUndefined c.value = false := by rw [h]; rfl
  have hs : stringSchemaOk none none c.value = true := by rw [h]; rfl
  simp [isString, stringArgsThrow, truthy, isArrV,
    validation_present_ok (stringSchemaOk none none) c.optional c.value
      c.errors c.innerErrorMessage c.preErr hv hs]

/-- Witness for the universally quantified part of isString_bounds_behaviour,
at a concrete chain holding the empty string. -/
theorem isString_bounds_behaviour_witness :
    (validate (.str "") msgsRI [] "Q.").value = .str "" ∧
    ((isString none none .undef (validate (.str "") msgsRI [] "Q.")).2 = none ∧
     (isString none none .undef (validate (.str "") msgsRI [] "Q.")).1.valid = true ∧
     (isString none none .undef (validate (.str "") msgsRI [] "Q.")).1.errors =
       (validate (.str "") msgsRI [] "Q.").errors) :=
  ⟨rfl, isString_bounds_behaviour.2.2 (validate (.str "") msgsRI [] "Q.") rfl⟩

/-- C6: isArrayMatch(["a","b"]) accepts the single string "a" (singleton
wrapping), rejects "c" with one invalid message, rejects ["a","b","c"] with
exactly one invalid message, accepts ["a","b"], and rejects any present
value that is neither an array nor a string with one invalid message. -/
theorem isArrayMatch_behaviour :
    ((isArrayMatch ["a", "b"] (validate (.str "a") msgsRI [] "P.")).valid = true ∧
     (isArrayMatch ["a", "b"] (validate (.str "a") msgsRI [] "P.")).errors = []) ∧
    ((isArrayMatch ["a", "b"] (validate (.str "c") msgsRI [] "P.")).valid = false ∧
     (isArrayMatch ["a", "b"] (validate (.str "c") msgsRI [] "P.")).errors = ["P.INV"]) ∧
    ((isArrayMatch ["a", "b"] (validate (.arr [.str "a", .str "b", .str "c"]) msgsRI [] "P.")).valid = false ∧
     (isArrayMatch ["a", "b"] (validate (.arr [.str "a", .str "b", .str "c"]) msgsRI [] "P.")).errors = ["P.INV"]) ∧
    ((isArrayMatch ["a", "b"] (validate (.arr [.str "a", .str "b"]) msgsRI [] "P.")).valid = true ∧
     (isArrayMatch ["a", "b"] (validate (.arr [.str "a", .str "b"]) msgsRI [] "P.")).errors = []) ∧
    (∀ c : Chain, _isNullOrUndefined c.value = false → isArrV c.value = false →
      isStrV c.value = false →
      (isArrayMatch ["a", "b"] c).valid = false ∧
      (isArrayMatch ["a", "b"] c).errors =
        c.errors ++ [c.preErr ++ c.innerErrorMessage.invalid]) := by
  refine ⟨⟨by decide, by decide⟩, ⟨by decide, by decide⟩, ⟨by decide, by decide⟩,
    ⟨by decide, by decide⟩, ?_⟩
  intro c h1 h2 h3
  have hver := verify_present c.optional c.value c.errors c.innerErrorMessage c.preErr h1
  cases hval : c.value <;>
    simp_all [isArrayMatch, isArrV, isStrV, pushInvalid, _isNullOrUndefined]

/-- Witness for the universally quantified part of isArrayMatch_behaviour,
at a chain holding the number 5. -/
theorem isArrayMatch_behaviour_witness :
    (_isNullOrUndefined (validate (.num 5) msgsRI [] "P.").value = false ∧
     isArrV (validate (.num 5) msgsRI [] "P.").value = false ∧
     isStrV (validate (.num 5) msgsRI [] "P.").value = false) ∧
    ((isArrayMatch ["a", "b"] (validate (.num 5) msgsRI [] "P.")).valid = false ∧
     (isArrayMatch ["a", "b"] (validate (.num 5) msgsRI [] "P.")).errors =
       (validate (.num 5) msgsRI [] "P.").errors ++
         [(validate (.num 5) msgsRI [] "P.").preErr ++
           (validate (.num 5) msgsRI [] "P.").innerErrorMessage.invalid]) :=
  ⟨⟨rfl, rfl, rfl⟩,
   isArrayMatch_behaviour.2.2.2.2 (validate (.num 5) msgsRI [] "P.") rfl rfl rfl⟩

lemma numberAccepted_mono (v : JSValue) (h : numberAccepted v = true) :
    floatAccepted v = true := by
  cases v <;> simp_all [numberAccepted, floatAccepted, joiIntegerOk]

lemma validation_errors_suffix (sch : JSValue → Bool) (ob : Bool) (v : JSValue)
    (e : List String) (m : Msgs) (p : String) :
    ∃ suffix, (_validation sch ob v e m p).2 = e ++ suffix ∧
      ∀ x ∈ suffix, x = p ++ m.required ∨ x = p ++ m.invalid := by
  by_cases hv : _isNullOrUndefined v = true
  · rw [validation_missing sch ob v e m p hv]
    cases ob
    · exact ⟨[p ++ m.required], by simp⟩
    · exact ⟨[], by simp⟩
  · rw [Bool.not_eq_true] at hv
    cases hs : sch v
    · rw [validation_present_fail sch ob v e m p hv hs]
      exact ⟨[p ++ m.invalid], by simp⟩
    · rw [validation_present_ok sch ob v e m p hv hs]
      exact ⟨[], by simp⟩

/-- C10: whenever a call to isNumber() would leave the chain valid and append
no error, a call to isFloat() on the same chain state also leaves the chain
valid and appends no error: Joi's integer schema is the numeric schema plus
an integrality rule, and the two methods share all the surrounding logic. -/
theorem isNumber_accept_implies_isFloat_accept (c : Chain)
    (h : (isNumber c).valid = true ∧ (isNumber c).errors = c.errors) :
    (isFloat c).valid = true ∧ (isFloat c).errors = c.errors := by
  by_cases hv : _isNullOrUndefined c.value = true
  · have := verify_missing c.optional c.value c.errors c.innerErrorMessage c.preErr hv
    simp [isNumber, this] at h
  · rw [Bool.not_eq_true] at hv
    have hver := verify_present c.optional c.value c.errors c.innerErrorMessage c.preErr hv
    cases ha : numberAccepted c.value
    · simp [isNumber, hver, ha, pushInvalid] at h
    · have hf := numberAccepted_mono c.value ha
      simp [isFloat, hver, hf]

/-- Witness for isNumber_accept_implies_isFloat_accept at the integer 5. -/
theorem isNumber_accept_implies_isFloat_accept_witness :
    ((isNumber (validate (.num 5) msgsRI [] "")).valid = true ∧
     (isNumber (validate (.num 5) msgsRI [] "")).errors =
       (validate (.num 5) msgsRI [] "").errors) ∧
    ((isFloat (validate (.num 5) msgsRI [] "")).valid = true ∧
     (isFloat (validate (.num 5) msgsRI [] "")).errors =
       (validate (.num 5) msgsRI [] "").errors) :=
  ⟨⟨by decide, by decide⟩,
   isNumber_accept_implies_isFloat_accept (validate (.num 5) msgsRI [] "")
     ⟨by decide, by decide⟩⟩

/-- C5: a truthy non-array notAllowedValues makes isString throw: the call
aborts with a hard error that propagates to the caller, and the contract
violation is never recorded in the errors list — every message the call may
have appended before the throw is one of the two normal validation messages.
When the length-bound arguments themselves are well-formed the thrown error
is exactly the `notAllowedValues must be an array` one. -/
theorem isString_contract_error_throws (minL maxL : Option Nat)
    (nav : JSValue) (c : Chain)
    (h1 : truthy nav = true) (h2 : isArrV nav = false) :
    (isString minL maxL nav c).2.isSome = true ∧
    (stringArgsThrow minL maxL = false →
      (isString minL maxL nav c).2 = some "notAllowedValues must be an array") ∧
    ∃ suffix, (isString minL maxL nav c).1.errors = c.errors ++ suffix ∧
      ∀ x ∈ suffix, x = c.preErr ++ c.innerErrorMessage.required ∨
        x = c.preErr ++ c.innerErrorMessage.invalid := by
  cases hth : stringArgsThrow minL maxL
  · obtain ⟨suffix, hsfx, hall⟩ := validation_errors_suffix
      (stringSchemaOk minL maxL) c.optional c.value c.errors
      c.innerErrorMessage c.preErr
    refine ⟨?_, ?_, suffix, ?_, hall⟩ <;>
      simp [isString, hth, h1, h2, hsfx]
  · exact ⟨by simp [isString, hth], by simp [hth], [], by simp [isString, hth]⟩

/-- Witness for isString_contract_error_throws with notAllowedValues = 1. -/
theorem isString_contract_error_throws_witness :
    (truthy (.num 1) = true ∧ isArrV (.num 1) = false) ∧
    ((isString none none (.num 1) (validate (.str "x") msgsRI [] "P.")).2.isSome = true ∧
     (stringArgsThrow none none = false →
       (isString none none (.num 1) (validate (.str "x") msgsRI [] "P.")).2 =
         some "notAllowedValues must be an array") ∧
     ∃ suffix,
       (isString none none (.num 1) (validate (.str "x") msgsRI [] "P.")).1.errors =
         (validate (.str "x") msgsRI [] "P.").errors ++ suffix ∧
       ∀ x ∈ suffix,
         x = (validate (.str "x") msgsRI [] "P.").preErr ++
           (validate (.str "x") msgsRI [] "P.").innerErrorMessage.required ∨
         x = (validate (.str "x") msgsRI [] "P.").preErr ++
           (validate (.str "x") msgsRI [] "P.").innerErrorMessage.invalid) :=
  ⟨⟨by decide, rfl⟩,
   isString_contract_error_throws none none (.num 1)
     (validate (.str "x") msgsRI [] "P.") (by decide) rfl⟩

/-- C9: isString's notAllowedValues membership check runs even when the
chained value is missing (null or undefined), whatever the optional flag:
when the argument is an array containing the missing value the call returns
normally, appends the unprefixed `invalid` message after whatever the
missing-value policy appended, and the membership branch leaves `valid`
exactly as an isString call without notAllowedValues would. -/
theorem isString_notAllowed_on_missing (minL maxL : Option Nat)
    (xs : List JSValue) (c : Chain)
    (hm : _isNullOrUndefined c.value = true)
    (hth : stringArgsThrow minL maxL = false)
    (hmem : xs.any (fun x => jsStrictEq x c.value) = true) :
    (isString minL maxL (.arr xs) c).2 = none ∧
    (isString minL maxL (.arr xs) c).1.errors =
      c.errors ++ (if c.optional then [] else [c.preErr ++ c.innerErrorMessage.required])
        ++ [c.innerErrorMessage.invalid] ∧
    (isString minL maxL (.arr xs) c).1.valid =
      (isString minL maxL .undef c).1.valid := by
  have hval := validation_missing (stringSchemaOk minL maxL) c.optional c.value
    c.errors c.innerErrorMessage c.preErr hm
  by_cases hob : c.optional = true
  · simp only [hob, if_true] at hval
    refine ⟨?_, ?_, ?_⟩ <;> simp [isString, hth, hval, truthy, isArrV, hmem, hob]
  · rw [Bool.not_eq_true] at hob
    simp only [hob, Bool.false_eq_true, if_false] at hval
    refine ⟨?_, ?_, ?_⟩ <;> simp [isString, hth, hval, truthy, isArrV, hmem, hob]

/-- Witness for isString_notAllowed_on_missing: an optional chain on null
with notAllowedValues = [null]. -/
theorem isString_notAllowed_on_missing_witness :
    (_isNullOrUndefined (isOptional (validate .null msgsRI [] "P.")).value = true ∧
     stringArgsThrow none none = false ∧
     [JSValue.null].any (fun x => jsStrictEq x (isOptional (validate .null msgsRI [] "P.")).value) = true) ∧
    ((isString none none (.arr [.null]) (isOptional (validate .null msgsRI [] "P."))).2 = none ∧
     (isString none none (.arr [.null]) (isOptional (validate .null msgsRI [] "P."))).1.errors =
       (isOptional (validate .null msgsRI [] "P.")).errors ++
         (if (isOptional (validate .null msgsRI [] "P.")).optional then []
          else [(isOptional (validate .null msgsRI [] "P.")).preErr ++
            (isOptional (validate .null msgsRI [] "P.")).innerErrorMessage.required])
         ++ [(isOptional (validate .null msgsRI [] "P.")).innerErrorMessage.invalid] ∧
     (isString none none (.arr [.null]) (isOptional (validate .null msgsRI [] "P."))).1.valid =
       (isString none none .undef (isOptional (validate .null msgsRI [] "P."))).1.valid) :=
  ⟨⟨rfl, rfl, rfl⟩,
   isString_notAllowed_on_missing none none [.null]
     (isOptional (validate .null msgsRI [] "P.")) rfl rfl rfl⟩

lemma navMemberExtra_non_arr (nav : JSValue) (c : Chain)
    (h : isArrV nav = false) : navMemberExtra nav c = [] := by
  cases nav <;> simp_all [navMemberExtra, isArrV]

lemma isString_missing (minL maxL : Option Nat) (nav : JSValue) (c : Chain)
    (hm : _isNullOrUndefined c.value = true) :
    (isString minL maxL nav c).1.errors =
      c.errors ++ (if stringArgsThrow minL maxL then []
        else (if c.optional then [] else [c.preErr ++ c.innerErrorMessage.required])
          ++ navMemberExtra nav c) ∧
    (isString minL maxL nav c).1.valid =
      (if stringArgsThrow minL maxL then c.valid else false) ∧
    (isString minL maxL nav c).1.value = c.value ∧
    (isString minL maxL nav c).1.optional = c.optional := by
  cases hth : stringArgsThrow minL maxL
  · have hval := validation_missing (stringSchemaOk minL maxL) c.optional c.value
      c.errors c.innerErrorMessage c.preErr hm
    by_cases hcond : (truthy nav && !(isArrV nav)) = true
    · have harr : isArrV nav = false := by
        have h := hcond
        simp only [Bool.and_eq_true, Bool.not_eq_true'] at h
        exact h.2
      have hnm := navMemberExtra_non_arr nav c harr
      by_cases hob : c.optional = true <;>
        simp_all [isString, hth, hval, hcond, hnm]
    · cases nav <;>
        by_cases hob : c.optional = true <;>
          simp_all [isString, hth, hval, navMemberExtra, truthy, isArrV] <;>
            (try (split <;> simp_all))
  · simp [isString, hth]

/-- C1 counterexample: a failed isNumber call sets `valid` to false, yet a
subsequent isString call that passes on the present string value sets `valid`
back to true — `valid` does not remain false for the rest of the chain's
lifetime. -/
theorem valid_is_not_monotone_cex :
    (isNumber (validate (.str "abc") msgsRI [] "")).valid = false ∧
    (isNumber (validate (.str "abc") msgsRI [] "")).errors = ["INV"] ∧
    (isString none none .undef
      (isNumber (validate (.str "abc") msgsRI [] ""))).1.valid = true := by
  decide

/-- C1 amended: `valid` is not monotone.  Every check except isDateISO and
isBoolean assigns the fresh verdict of its own run, so a later check that
passes overwrites an earlier false: isString with no bounds on any chain
holding a string (in particular one left invalid by a failed isNumber)
returns with `valid = true`, while isDateISO and isBoolean never change
`valid` at all. -/
theorem later_passing_check_overwrites_valid (S : Schemas) (c : Chain)
    (s : String) (_hval : c.valid = false) (hv : c.value = .str s) :
    ((isString none none .undef c).1.valid = true ∧
     (isString none none .undef c).1.errors = c.errors ∧
     (isString none none .undef c).2 = none) ∧
    (isDateISO S c).valid = c.valid ∧
    (isBoolean c).valid = c.valid := by
  have h1 : _isNullOrUndefined c.value = false := by rw [hv]; rfl
  have hs : stringSchemaOk none none c.value = true := by rw [hv]; rfl
  refine ⟨?_, by simp [isDateISO], by simp [isBoolean]⟩
  simp [isString, stringArgsThrow, truthy, isArrV,
    validation_present_ok (stringSchemaOk none none) c.optional c.value
      c.errors c.innerErrorMessage c.preErr h1 hs]

/-- Witness for later_passing_check_overwrites_valid at the chain left
invalid by a failed isNumber on the string "abc". -/
theorem later_passing_check_overwrites_valid_witness :
    ((isNumber (validate (.str "abc") msgsRI [] "")).valid = false ∧
     (isNumber (validate (.str "abc") msgsRI [] "")).value = .str "abc") ∧
    (((isString none none .undef (isNumber (validate (.str "abc") msgsRI [] ""))).1.valid = true ∧
      (isString none none .undef (isNumber (validate (.str "abc") msgsRI [] ""))).1.errors =
        (isNumber (validate (.str "abc") msgsRI [] "")).errors ∧
      (isString none none .undef (isNumber (validate (.str "abc") msgsRI [] ""))).2 = none) ∧
     (isDateISO joiLike (isNumber (validate (.str "abc") msgsRI [] ""))).valid =
       (isNumber (validate (.str "abc") msgsRI [] "")).valid ∧
     (isBoolean (isNumber (validate (.str "abc") msgsRI [] ""))).valid =
       (isNumber (validate (.str "abc") msgsRI [] "")).valid) :=
  ⟨⟨by decide, rfl⟩,
   later_passing_check_overwrites_valid joiLike
     (isNumber (validate (.str "abc") msgsRI [] "")) "abc" (by decide) rfl⟩

/-- C2 counterexample: on a missing value with `optional` set, a check call
does not leave `valid` as it was — the spec's own end-to-end example
`validate(undefined, msgs, []).isOptional().isString()` ends with `valid`
false (though `errors` does stay empty), because `_verifyNullOrUndefined`
returns `valid: false` in its optional branch and isString assigns it. -/
theorem optional_missing_flips_valid_cex :
    (isString none none .undef (isOptional (validate .undef msgsRI [] ""))).1.valid
      = false ∧
    (isString none none .undef (isOptional (validate .undef msgsRI [] ""))).1.errors
      = [] := by
  decide

/-- C2 amended: on a missing value with `optional` true, every check call
appends nothing to `errors` — except isString when its notAllowedValues
argument is an array containing the missing value, which appends the
unprefixed invalid message — and leaves `valid` equal to false, not to its
previous value; the exceptions are isDateISO and isBoolean, which discard the
verdict and leave `valid` unchanged, and an isString whose schema
construction throws (exactly one length bound supplied), which leaves the
whole state unchanged.  `value` and `optional` are never modified. -/
theorem missing_optional_check_outcome (S : Schemas) (chk : Check) (c : Chain)
    (hm : _isNullOrUndefined c.value = true) (hob : c.optional = true) :
    (runCheck S chk c).1.errors = c.errors ++ missingOptExtra chk c ∧
    (runCheck S chk c).1.valid = missingValid chk c ∧
    (runCheck S chk c).1.value = c.value ∧
    (runCheck S chk c).1.optional = c.optional := by
  have hver : _verifyNullOrUndefined c.optional c.value c.errors
      c.innerErrorMessage c.preErr = (true, false, c.errors) := by
    rw [verify_missing c.optional c.value c.errors c.innerErrorMessage c.preErr hm,
      hob]
    simp
  have hval : ∀ sch, _validation sch c.optional c.value c.errors
      c.innerErrorMessage c.preErr = (false, c.errors) := by
    intro sch
    rw [validation_missing sch c.optional c.value c.errors c.innerErrorMessage
      c.preErr hm, hob]
    simp
  cases chk
  case isString minL maxL nav =>
    have h := isString_missing minL maxL nav c hm
    rw [hob] at h
    cases hth : stringArgsThrow minL maxL <;>
      simp_all [runCheck, missingOptExtra, missingValid]
  all_goals
    simp [runCheck, isStringEnum, isNumber, isFloat, isDateISO,
      isDateIS8601Duration, isBoolean, isObject, isObjectNotEmpty, isObjectId,
      isEmail, isUUID, isArray, isArrayMatch, isArrayNotEmpty, custom,
      hver, hval, missingOptExtra, missingValid, isUndefV]

/-- Witness for missing_optional_check_outcome: an optional chain on
undefined, checked with isNumber. -/
theorem missing_optional_check_outcome_witness :
    (_isNullOrUndefined (isOptional (validate .undef msgsRI [] "")).value = true ∧
     (isOptional (validate .undef msgsRI [] "")).optional = true) ∧
    ((runCheck joiLike .isNumber (isOptional (validate .undef msgsRI [] ""))).1.errors =
       (isOptional (validate .undef msgsRI [] "")).errors ++
         missingOptExtra .isNumber (isOptional (validate .undef msgsRI [] "")) ∧
     (runCheck joiLike .isNumber (isOptional (validate .undef msgsRI [] ""))).1.valid =
       missingValid .isNumber (isOptional (validate .undef msgsRI [] "")) ∧
     (runCheck joiLike .isNumber (isOptional (validate .undef msgsRI [] ""))).1.value =
       (isOptional (validate .undef msgsRI [] "")).value ∧
     (runCheck joiLike .isNumber (isOptional (validate .undef msgsRI [] ""))).1.optional =
       (isOptional (validate .undef msgsRI [] "")).optional) :=
  ⟨⟨rfl, rfl⟩,
   missing_optional_check_outcome joiLike .isNumber
     (isOptional (validate .undef msgsRI [] "")) rfl rfl⟩

/-- C4 counterexample: on a missing value with `optional` false, isDateISO
appends the prefixed required message but does not set `valid` to false —
the verdict `_validation` returns is discarded, so `valid` stays true. -/
theorem missing_required_isDateISO_keeps_valid_cex :
    (isDateISO joiLike (validate .null msgsRI [] "P.")).valid = true ∧
    (isDateISO joiLike (validate .null msgsRI [] "P.")).errors = ["P.REQ"] := by
  decide

/-- C4 amended: on a missing value with `optional` false, every check call
appends exactly one message, `prefixError ++ innerErrorMessage.required`, and
skips its remaining semantic logic; every check also sets `valid` to false
except isDateISO and isBoolean, which append the required message but leave
`valid` unchanged.  Two isString corner cases deviate further: when its
schema construction throws (exactly one length bound supplied) nothing is
appended and nothing changes, and when notAllowedValues is an array
containing the missing value a second, unprefixed invalid message follows the
required one.  `value` and `optional` are never modified. -/
theorem missing_required_check_outcome (S : Schemas) (chk : Check) (c : Chain)
    (hm : _isNullOrUndefined c.value = true) (hob : c.optional = false) :
    (runCheck S chk c).1.errors = c.errors ++ missingReqExtra chk c ∧
    (runCheck S chk c).1.valid = missingValid chk c ∧
    (runCheck S chk c).1.value = c.value ∧
    (runCheck S chk c).1.optional = c.optional := by
  have hver : _verifyNullOrUndefined c.optional c.value c.errors
      c.innerErrorMessage c.preErr =
      (true, false, c.errors ++ [c.preErr ++ c.innerErrorMessage.required]) := by
    rw [verify_missing c.optional c.value c.errors c.innerErrorMessage c.preErr hm,
      hob]
    simp
  have hval : ∀ sch, _validation sch c.optional c.value c.errors
      c.innerErrorMessage c.preErr =
      (false, c.errors ++ [c.preErr ++ c.innerErrorMessage.required]) := by
    intro sch
    rw [validation_missing sch c.optional c.value c.errors c.innerErrorMessage
      c.preErr hm, hob]
    simp
  cases chk
  case isString minL maxL nav =>
    have h := isString_missing minL maxL nav c hm
    rw [hob] at h
    cases hth : stringArgsThrow minL maxL <;>
      simp_all [runCheck, missingReqExtra, missingValid]
  all_goals
    simp [runCheck, isStringEnum, isNumber, isFloat, isDateISO,
      isDateIS8601Duration, isBoolean, isObject, isObjectNotEmpty, isObjectId,
      isEmail, isUUID, isArray, isArrayMatch, isArrayNotEmpty, custom,
      hver, hval, missingReqExtra, missingValid, isUndefV]

/-- Witness for missing_required_check_outcome: a non-optional chain on
null, checked with isDateISO. -/
theorem missing_required_check_outcome_witness :
    (_isNullOrUndefined (validate .null msgsRI [] "P.").value = true ∧
     (validate .null msgsRI [] "P.").optional = false) ∧
    ((runCheck joiLike .isDateISO (validate .null msgsRI [] "P.")).1.errors =
       (validate .null msgsRI [] "P.").errors ++
         missingReqExtra .isDateISO (validate .null msgsRI [] "P.") ∧
     (runCheck joiLike .isDateISO (validate .null msgsRI [] "P.")).1.valid =
       missingValid .isDateISO (validate .null msgsRI [] "P.") ∧
     (runCheck joiLike .isDateISO (validate .null msgsRI [] "P.")).1.value =
       (validate .null msgsRI [] "P.").value ∧
     (runCheck joiLike .isDateISO (validate .null msgsRI [] "P.")).1.optional =
       (validate .null msgsRI [] "P.").optional) :=
  ⟨⟨rfl, rfl⟩,
   missing_required_check_outcome joiLike .isDateISO
     (validate .null msgsRI [] "P.") rfl rfl⟩

/-- C3 counterexample: on a present value failing the check's rule, isDateISO
appends the prefixed invalid message but does not set `valid` to false — the
verdict is discarded, so `valid` stays true (here on the boolean true, which
Joi.date().iso() rejects whatever the opaque string format is). -/
theorem present_failing_isDateISO_keeps_valid_cex :
    (isDateISO joiLike (validate (.bool true) msgsRI [] "P.")).valid = true ∧
    (isDateISO joiLike (validate (.bool true) msgsRI [] "P.")).errors = ["P.INV"] := by
  decide

/-- C3 amended: on a present value failing the check's specific rule (with
arguments under which the call cannot throw), every check appends
`prefixError ++ innerErrorMessage.invalid` to `errors` and returns the chain
normally; every check also sets `valid` to false except isDateISO and
isBoolean, which append the invalid message but leave `valid` unchanged.
The notAllowedValues membership branch of isString is separate: it appends a
second, unprefixed invalid message and never itself changes `valid`. -/
theorem present_failing_check_outcome (S : Schemas) (chk : Check) (c : Chain)
    (hp : _isNullOrUndefined c.value = false)
    (hargs : checkArgsOk chk = true)
    (hfail : checkFails S chk c.value = true) :
    (runCheck S chk c).1.errors =
      c.errors ++ [c.preErr ++ c.innerErrorMessage.invalid]
        ++ presentNavExtra chk c ∧
    (runCheck S chk c).1.valid = presentFailValid chk c ∧
    (runCheck S chk c).2 = none := by
  have hver := verify_present c.optional c.value c.errors c.innerErrorMessage
    c.preErr hp
  have hundef := present_not_undef c.value hp
  cases chk
  case isString minL maxL nav =>
    simp only [checkArgsOk, Bool.and_eq_true, Bool.not_eq_true'] at hargs
    simp only [checkFails, Bool.not_eq_true'] at hfail
    obtain ⟨hth, hcond⟩ := hargs
    have hval := validation_present_fail (stringSchemaOk minL maxL) c.optional
      c.value c.errors c.innerErrorMessage c.preErr hp hfail
    cases nav <;>
      simp_all [runCheck, isString, presentNavExtra, navMemberExtra,
        truthy, isArrV] <;>
      (try (split <;> simp_all)) <;>
      (try rfl)
  case isStringEnum xs =>
    simp only [checkFails, Bool.or_eq_true, Bool.not_eq_true'] at hfail
    cases hs : joiStringOk c.value
    · have hval := validation_present_fail joiStringOk c.optional c.value
        c.errors c.innerErrorMessage c.preErr hp hs
      simp [runCheck, isStringEnum, hval, presentNavExtra, presentFailValid]
    · have hval := validation_present_ok joiStringOk c.optional c.value
        c.errors c.innerErrorMessage c.preErr hp hs
      have hmem : (xs.any fun x => sameValueZero x c.value) = false := by
        rcases hfail with h | h
        · rw [hs] at h; cases h
        · exact h
      simp [runCheck, isStringEnum, hval, hundef, hmem, pushInvalid,
        presentNavExtra, presentFailValid]
  case isNumber =>
    simp only [checkFails, Bool.not_eq_true'] at hfail
    simp [runCheck, isNumber, hver, hfail, pushInvalid, presentNavExtra,
      presentFailValid]
  case isFloat =>
    simp only [checkFails, Bool.not_eq_true'] at hfail
    simp [runCheck, isFloat, hver, hfail, pushInvalid, presentNavExtra,
      presentFailValid]
  case isDateISO =>
    simp only [checkFails, Bool.not_eq_true'] at hfail
    have hval := validation_present_fail (isoDateOk S) c.optional c.value
      c.errors c.innerErrorMessage c.preErr hp hfail
    simp [runCheck, isDateISO, hval, presentNavExtra, presentFailValid]
  case isDateIS8601Duration =>
    simp only [checkFails, Bool.or_eq_true, Bool.not_eq_true'] at hfail
    cases hs : joiStringOk c.value
    · have hval := validation_present_fail joiStringOk c.optional c.value
        c.errors c.innerErrorMessage c.preErr hp hs
      simp [runCheck, isDateIS8601Duration, hval, presentNavExtra,
        presentFailValid]
    · have hval := validation_present_ok joiStringOk c.optional c.value
        c.errors c.innerErrorMessage c.preErr hp hs
      have hdur : S.durationStr (jsAsString c.value) = false := by
        rcases hfail with h | h
        · rw [hs] at h; cases h
        · exact h
      simp [runCheck, isDateIS8601Duration, hval, hdur, pushInvalid,
        presentNavExtra, presentFailValid]
  case isBoolean =>
    simp only [checkFails, Bool.not_eq_true'] at hfail
    have hval := validation_present_fail boolOk c.optional c.value
      c.errors c.innerErrorMessage c.preErr hp hfail
    simp [runCheck, isBoolean, hval, presentNavExtra, presentFailValid]
  case isObject =>
    simp only [checkFails, Bool.not_eq_true'] at hfail
    have hval := validation_present_fail objOk c.optional c.value
      c.errors c.innerErrorMessage c.preErr hp hfail
    simp [runCheck, isObject, hval, presentNavExtra, presentFailValid]
  case isObjectNotEmpty =>
    simp only [checkFails, Bool.or_eq_true, Bool.not_eq_true'] at hfail
    cases ho : objOk c.value
    · have hval := validation_present_fail objOk c.optional c.value
        c.errors c.innerErrorMessage c.preErr hp ho
      simp [runCheck, isObjectNotEmpty, hver, hval, presentNavExtra,
        presentFailValid]
    · have hval := validation_present_ok objOk c.optional c.value
        c.errors c.innerErrorMessage c.preErr hp ho
      have hemp : isEmptyObjectV c.value = true := by
        rcases hfail with h | h
        · rw [ho] at h; cases h
        · exact h
      simp [runCheck, isObjectNotEmpty, hver, hval, hemp, pushInvalid,
        presentNavExtra, presentFailValid]
  case isObjectId =>
    simp only [checkFails, Bool.not_eq_true'] at hfail
    simp [runCheck, isObjectId, hver, hfail, pushInvalid, presentNavExtra,
      presentFailValid]
  case isEmail =>
    simp only [checkFails, Bool.not_eq_true'] at hfail
    have hval := validation_present_fail (emailOk S) c.optional c.value
      c.errors c.innerErrorMessage c.preErr hp hfail
    simp [runCheck, isEmail, hval, presentNavExtra, presentFailValid]
  case isUUID =>
    simp only [checkFails, Bool.not_eq_true'] at hfail
    have hval := validation_present_fail (uuidOk S) c.optional c.value
      c.errors c.innerErrorMessage c.preErr hp hfail
    simp [runCheck, isUUID, hval, presentNavExtra, presentFailValid]
  case isArray =>
    simp only [checkFails, Bool.not_eq_true'] at hfail
    have hval := validation_present_fail isArrV c.optional c.value
      c.errors c.innerErrorMessage c.preErr hp hfail
    simp [runCheck, isArray, hval, presentNavExtra, presentFailValid]
  case isArrayMatch alts =>
    cases hv : c.value
    case null =>
      rw [hv] at hp
      simp [_isNullOrUndefined] at hp
    case undef =>
      rw [hv] at hp
      simp [_isNullOrUndefined] at hp
    case arr xs =>
      rw [hv] at hfail hver
      simp only [checkFails, Bool.not_eq_true'] at hfail
      simp [runCheck, isArrayMatch, hver, hv, hfail, pushInvalid,
        presentNavExtra, presentFailValid]
    case str s =>
      rw [hv] at hfail hver
      simp only [checkFails, Bool.not_eq_true'] at hfail
      simp [runCheck, isArrayMatch, hver, hv, hfail, pushInvalid,
        presentNavExtra, presentFailValid]
    all_goals
      rw [hv] at hver
    all_goals
      simp [runCheck, isArrayMatch, hver, hv, pushInvalid, presentNavExtra,
        presentFailValid]
  case isArrayNotEmpty =>
    simp only [checkFails, Bool.or_eq_true, Bool.not_eq_true'] at hfail
    cases ha : isArrV c.value
    · have hval := validation_present_fail isArrV c.optional c.value
        c.errors c.innerErrorMessage c.preErr hp ha
      simp [runCheck, isArrayNotEmpty, hval, presentNavExtra, presentFailValid]
    · have hval := validation_present_ok isArrV c.optional c.value
        c.errors c.innerErrorMessage c.preErr hp ha
      have hlen : jsLen c.value = 0 := by
        rcases hfail with h | h
        · rw [ha] at h; cases h
        · simpa using h
      simp [runCheck, isArrayNotEmpty, hval, hlen, pushInvalid,
        presentNavExtra, presentFailValid]
  case custom f =>
    simp only [checkFails, Bool.not_eq_true'] at hfail
    simp [runCheck, custom, hver, hfail, pushInvalid, presentNavExtra,
      presentFailValid]

/-- Witness for present_failing_check_outcome: isNumber on the string "x"
(not a number), with well-formed arguments. -/
theorem present_failing_check_outcome_witness :
    (_isNullOrUndefined (validate (.str "x") msgsRI [] "P.").value = false ∧
     checkArgsOk .isNumber = true ∧
     checkFails joiLike .isNumber (validate (.str "x") msgsRI [] "P.").value = true) ∧
    ((runCheck joiLike .isNumber (validate (.str "x") msgsRI [] "P.")).1.errors =
       (validate (.str "x") msgsRI [] "P.").errors ++
         [(validate (.str "x") msgsRI [] "P.").preErr ++
           (validate (.str "x") msgsRI [] "P.").innerErrorMessage.invalid] ++
         presentNavExtra .isNumber (validate (.str "x") msgsRI [] "P.") ∧
     (runCheck joiLike .isNumber (validate (.str "x") msgsRI [] "P.")).1.valid =
       presentFailValid .isNumber (validate (.str "x") msgsRI [] "P.") ∧
     (runCheck joiLike .isNumber (validate (.str "x") msgsRI [] "P.")).2 = none) :=
  ⟨⟨rfl, rfl, rfl⟩,
   present_failing_check_outcome joiLike .isNumber
     (validate (.str "x") msgsRI [] "P.") rfl rfl rfl⟩

/-- Witness for isValid_callback_semantics at a concrete freshly validated
chain. -/
theorem isValid_callback_semantics_witness :
    (isValid (validate (.str "x") msgsRI [] "")).1 = validate (.str "x") msgsRI [] "" ∧
    (isValid (validate (.str "x") msgsRI [] "")).2 =
      (if (validate (.str "x") msgsRI [] "").valid then 1 else 0) :=
  isValid_callback_semantics (validate (.str "x") msgsRI [] "")
